import Mathlib

/-!
# Verification of the container manager toy

A shallow embedding of the container lifecycle manager:
* the Manager RPC handler (`src/manager.py`, `ContainerManagerHandler`),
* the Executor's reap/teardown loop (`src/executor.py`) and
* the Executor's fork/pipe launch handshake (`src/executor.py`,
  `_execAssistentManager`).

Python dictionaries are modelled as association lists (first match wins,
as dict keys are unique in every reachable state), Python sets as lists
used up to membership, and Python exceptions as explicit error values.
Since Python mutations performed before a raise persist, every handler
returns the (possibly partially mutated) state *together with* the
normal result or the raised exception.
-/

set_option autoImplicit false

namespace ContainerManagerToy

/-! ## Thrift value types (gen-py `container_manager.ttypes`, spec section 6)

Optional thrift fields are `none` until assigned, matching the generated
Python classes where unset fields are `None`.
-/

/-- `ContainerState` enum. -/
inductive ContainerState where
  | READY
  | RUNNING
  | STOPPING
  | DEAD
  deriving DecidableEq, Repr

/-- `ManagerResponse` enum: the directive returned to an assistent manager. -/
inductive ManagerResponse where
  | OKAY
  | STOP
  | ABORT
  deriving DecidableEq, Repr

/-- `ExitCode` enum. -/
inductive ExitCode where
  | EXIT
  | SIGNAL
  deriving DecidableEq, Repr

/-- `ExitInfo { code, status }`. -/
structure ExitInfo where
  code : ExitCode
  status : Nat
  deriving DecidableEq, Repr

/-- `Command { cmd, arguments }`. -/
structure Command where
  cmd : String
  arguments : List String
  deriving DecidableEq, Repr

/-- `ContainerInfo { tag, state, exitInfo? }`; `ContainerInfo(tag, state)`
leaves `exitInfo` unset. -/
structure ContainerInfo where
  tag : String
  state : ContainerState
  exitInfo : Option ExitInfo := none
  deriving DecidableEq, Repr

/-- `AssistentManagerInfo { tag, command, pid?, workloadPid?, cgroupPath? }`;
`AssistentManagerInfo(tag, command)` leaves the run-time fields unset. -/
structure AssistentManagerInfo where
  tag : String
  command : Command
  pid : Option Nat := none
  workloadPid : Option Nat := none
  cgroupPath : Option String := none
  deriving DecidableEq, Repr

/-- `CreateContainerRequest`. -/
structure CreateContainerRequest where
  tag : String
  deriving DecidableEq, Repr

/-- `StartContainerRequest`. -/
structure StartContainerRequest where
  tag : String
  command : Command
  deriving DecidableEq, Repr

/-- `StopContainerRequest`. -/
structure StopContainerRequest where
  tag : String
  deriving DecidableEq, Repr

/-- `DeleteContainerRequest`. -/
structure DeleteContainerRequest where
  tag : String
  deriving DecidableEq, Repr

/-- `ListContainerRequest`; `tags` is an optional field. -/
structure ListContainerRequest where
  tags : Option (List String) := none
  deriving DecidableEq, Repr

/-- `ReportContainerStatusRequest`. -/
structure ReportContainerStatusRequest where
  tag : String
  state : ContainerState
  pid : Option Nat := none
  workloadPid : Option Nat := none
  cgroupPath : Option String := none
  exitInfo : Option ExitInfo := none
  deriving DecidableEq, Repr

/-- `AssistentManagerStatusRequest`. -/
structure AssistentManagerStatusRequest where
  tag : String
  deriving DecidableEq, Repr

/-- Python exceptions a handler body can raise.  `invalidOperation` is the
typed thrift error; `keyError` is Python's `KeyError` (from `dict[k]` or
`set.remove`); `assertionError` is a failed `assert` statement.
Reason strings are abbreviated renderings of the Python f-strings. -/
inductive PyError where
  | invalidOperation (reason : String)
  | keyError (key : String)
  | assertionError
  deriving DecidableEq, Repr

/-- Decidable equality of handler results. -/
instance instDecEqExcept {ε α : Type} [DecidableEq ε] [DecidableEq α] :
    DecidableEq (Except ε α) := fun x y =>
  match x, y with
  | .error a, .error b =>
    if h : a = b then .isTrue (congrArg Except.error h)
    else .isFalse (fun hh => h (Except.error.inj hh))
  | .ok a, .ok b =>
    if h : a = b then .isTrue (congrArg Except.ok h)
    else .isFalse (fun hh => h (Except.ok.inj hh))
  | .error _, .ok _ => .isFalse (fun hh => Except.noConfusion hh)
  | .ok _, .error _ => .isFalse (fun hh => Except.noConfusion hh)

/-! ## Association-list model of Python dicts

`alookup` returns the first binding of a key (dict keys are unique in every
reachable state, so this is the dict lookup); `aupdate` models
`d[k] = v` (replace in place, else append, preserving insertion order);
`aerase` models `del d[k]`. -/

/-- First value bound to `t`, if any (`d[k]` / `k in d`). -/
def alookup {α : Type} : List (String × α) → String → Option α
  | [], _ => none
  | (k, v) :: rest, t => if k = t then some v else alookup rest t

/-- `d[k] = v`: replace the binding in place, else append. -/
def aupdate {α : Type} : List (String × α) → String → α → List (String × α)
  | [], t, v => [(t, v)]
  | (k, w) :: rest, t, v =>
    if k = t then (t, v) :: rest else (k, w) :: aupdate rest t v

/-- `del d[k]`: drop the bindings of `k`. -/
def aerase {α : Type} : List (String × α) → String → List (String × α)
  | [], _ => []
  | (k, w) :: rest, t =>
    if k = t then aerase rest t else (k, w) :: aerase rest t

/-- `d.values()`, in insertion order. -/
def avalues {α : Type} (l : List (String × α)) : List α :=
  l.map Prod.snd

/-- `set.add`: no-op if the element is already present. -/
def sadd (l : List String) (t : String) : List String :=
  if t ∈ l then l else l ++ [t]

/-- Removal of every occurrence; on duplicate-free lists (every reachable
`runningContainers`) this is `set.remove` minus the `KeyError`, which the
caller checks for explicitly. -/
def sremove : List String → String → List String
  | [], _ => []
  | x :: xs, t => if x = t then sremove xs t else x :: sremove xs t

/-! ## Manager state (`ContainerManagerHandler.__init__`) -/

/-- The four tables of `ContainerManagerHandler`. -/
structure ManagerState where
  containerInfos : List (String × ContainerInfo)
  assistentManagers : List (String × AssistentManagerInfo)
  runnable : List String
  runningContainers : List String
  deriving DecidableEq, Repr

/-- The freshly constructed handler: all tables empty. -/
def initState : ManagerState :=
  { containerInfos := []
    assistentManagers := []
    runnable := []
    runningContainers := [] }

/-! ## Handlers (`src/manager.py`)

Each handler returns the post-call state (reflecting any mutations made
before a raise) together with `Except PyError` of its normal result. -/

/-- `createContainer` (manager.py lines 90-106): duplicate check, then
insert `ContainerInfo(tag, READY)`. -/
def createContainer (s : ManagerState) (request : CreateContainerRequest) :
    ManagerState × Except PyError Unit :=
  if (alookup s.containerInfos request.tag).isSome then
    (s, .error (.invalidOperation ("container: " ++ request.tag ++ " already exists!")))
  else
    ({ s with containerInfos :=
        (aupdate s.containerInfos request.tag
          { tag := request.tag, state := ContainerState.READY }) },
     .ok ())

/-- `startContainer` (manager.py lines 108-136): `_checkExists`,
`_checkInStates [READY]`, `assert tag not in assistentManagers`, then
materialize `AssistentManagerInfo(tag, command)` and append to `runnable`. -/
def startContainer (s : ManagerState) (request : StartContainerRequest) :
    ManagerState × Except PyError Unit :=
  match alookup s.containerInfos request.tag with
  | none =>
    (s, .error (.invalidOperation ("container: " ++ request.tag ++ " does not exist")))
  | some info =>
    if info.state ≠ ContainerState.READY then
      (s, .error (.invalidOperation ("container: " ++ request.tag ++ " state mismatch")))
    else if (alookup s.assistentManagers request.tag).isSome then
      (s, .error .assertionError)
    else
      ({ s with
          assistentManagers :=
            (aupdate s.assistentManagers request.tag
              { tag := request.tag, command := request.command })
          runnable := s.runnable ++ [request.tag] },
       .ok ())

/-- `stopContainer` (manager.py lines 138-161): `_checkExists`,
`_checkInStates [STOPPING, RUNNING]`, then set the state to STOPPING.
The running set is not touched. -/
def stopContainer (s : ManagerState) (request : StopContainerRequest) :
    ManagerState × Except PyError Unit :=
  match alookup s.containerInfos request.tag with
  | none =>
    (s, .error (.invalidOperation ("container: " ++ request.tag ++ " does not exist")))
  | some info =>
    if info.state = ContainerState.STOPPING ∨ info.state = ContainerState.RUNNING then
      ({ s with containerInfos :=
          (aupdate s.containerInfos request.tag
            { info with state := ContainerState.STOPPING }) },
       .ok ())
    else
      (s, .error (.invalidOperation ("container: " ++ request.tag ++ " state mismatch")))

/-- `deleteContainer` (manager.py lines 163-180): `_checkExists`, reject
RUNNING/STOPPING, then erase the ContainerInfo and any AssistentManagerInfo.
The runnable queue and running set are not touched. -/
def deleteContainer (s : ManagerState) (request : DeleteContainerRequest) :
    ManagerState × Except PyError Unit :=
  match alookup s.containerInfos request.tag with
  | none =>
    (s, .error (.invalidOperation ("container: " ++ request.tag ++ " does not exist")))
  | some info =>
    if info.state = ContainerState.RUNNING ∨ info.state = ContainerState.STOPPING then
      (s, .error (.invalidOperation ("container " ++ request.tag ++ " is still active!")))
    else
      ({ s with
          containerInfos := aerase s.containerInfos request.tag
          assistentManagers := aerase s.assistentManagers request.tag },
       .ok ())

/-- Check that every requested tag exists, in order, like the loop of
`listContainers` (manager.py lines 189-190). -/
def allTagsExist (s : ManagerState) : List String → Option String
  | [] => none
  | t :: rest =>
    if (alookup s.containerInfos t).isSome then allTagsExist s rest else some t

/-- `listContainers` (manager.py lines 182-191): empty/missing `tags` returns
every info; otherwise each tag is checked and its info returned. Never
mutates. -/
def listContainers (s : ManagerState) (request : ListContainerRequest) :
    ManagerState × Except PyError (List ContainerInfo) :=
  match request.tags with
  | none => (s, .ok (avalues s.containerInfos))
  | some [] => (s, .ok (avalues s.containerInfos))
  | some tags =>
    match allTagsExist s tags with
    | some t =>
      (s, .error (.invalidOperation ("container: " ++ t ++ " does not exist")))
    | none =>
      (s, .ok (tags.filterMap (fun t => alookup s.containerInfos t)))

/-- `dequeueReadyContainers` (manager.py lines 195-202): copy the runnable
queue, clear it, return the copy. -/
def dequeueReadyContainers (s : ManagerState) : ManagerState × List String :=
  ({ s with runnable := [] }, s.runnable)

/-- `getRunningContainers` (manager.py lines 204-208). -/
def getRunningContainers (s : ManagerState) : List String :=
  s.runningContainers

/-- `getAssistentManagerStatus` (manager.py lines 210-221): the `amInfo`
field of the response, unset when the tag is not managed. -/
def getAssistentManagerStatus (s : ManagerState)
    (request : AssistentManagerStatusRequest) : Option AssistentManagerInfo :=
  alookup s.assistentManagers request.tag

/-- The directive computed at the end of `reportContainerStatus`
(manager.py lines 269-272) from the container's post-transition state. -/
def directiveFor (st : ContainerState) : ManagerResponse :=
  if st = ContainerState.STOPPING then ManagerResponse.STOP else ManagerResponse.OKAY

/-- `reportContainerStatus` (manager.py lines 223-273), line by line:

* unknown tag → `ABORT`, no mutation (line 244-246);
* `request.state = RUNNING` and current state READY (lines 248-259):
  `assistentManagers[tag]` is read first — a `KeyError` escapes with no
  mutation when the tag was never started — then the pid fields are
  stamped, the state set to RUNNING and the tag added to the running set;
* `request.state = DEAD` (lines 260-266): the state is set to DEAD and
  `exitInfo` overwritten with the request's (possibly unset) `exitInfo`,
  and only then `runningContainers.remove(tag)` runs — raising `KeyError`
  and leaving the already-performed mutations in place when the tag is
  not in the running set;
* any other input mutates nothing;
* on the non-raising paths the directive is STOP iff the post-transition
  state is STOPPING, else OKAY (lines 269-272). -/
def reportContainerStatus (s : ManagerState)
    (request : ReportContainerStatusRequest) :
    ManagerState × Except PyError ManagerResponse :=
  match alookup s.containerInfos request.tag with
  | none => (s, .ok ManagerResponse.ABORT)
  | some info =>
    if request.state = ContainerState.RUNNING ∧ info.state = ContainerState.READY then
      match alookup s.assistentManagers request.tag with
      | none => (s, .error (.keyError request.tag))
      | some am =>
        let info2 := { info with state := ContainerState.RUNNING }
        ({ s with
            assistentManagers :=
              (aupdate s.assistentManagers request.tag
                { am with pid := request.pid, workloadPid := request.workloadPid })
            containerInfos := aupdate s.containerInfos request.tag info2
            runningContainers := sadd s.runningContainers request.tag },
         .ok (directiveFor info2.state))
    else if request.state = ContainerState.DEAD then
      let info2 := { info with state := ContainerState.DEAD, exitInfo := request.exitInfo }
      let s2 := { s with containerInfos := aupdate s.containerInfos request.tag info2 }
      if request.tag ∈ s.runningContainers then
        ({ s2 with runningContainers := sremove s.runningContainers request.tag },
         .ok (directiveFor info2.state))
      else
        (s2, .error (.keyError request.tag))
    else
      (s, .ok (directiveFor info.state))

/-! ## Operation sequences -/

/-- One RPC arriving at the single-threaded handler. -/
inductive Op where
  | create (request : CreateContainerRequest)
  | start (request : StartContainerRequest)
  | stop (request : StopContainerRequest)
  | delete (request : DeleteContainerRequest)
  | list (request : ListContainerRequest)
  | dequeue
  | getRunning
  | getAMStatus (request : AssistentManagerStatusRequest)
  | report (request : ReportContainerStatusRequest)
  deriving DecidableEq, Repr

/-- The exception raised by a handler result, if any. -/
def errOf {α : Type} : Except PyError α → Option PyError
  | .error e => some e
  | .ok _ => none

/-- State reached and exception (if any) raised by one operation. -/
def applyOp (s : ManagerState) : Op → ManagerState × Option PyError
  | .create request => ((createContainer s request).1, errOf (createContainer s request).2)
  | .start request => ((startContainer s request).1, errOf (startContainer s request).2)
  | .stop request => ((stopContainer s request).1, errOf (stopContainer s request).2)
  | .delete request => ((deleteContainer s request).1, errOf (deleteContainer s request).2)
  | .list request => ((listContainers s request).1, errOf (listContainers s request).2)
  | .dequeue => ((dequeueReadyContainers s).1, none)
  | .getRunning => (s, none)
  | .getAMStatus _ => (s, none)
  | .report request => ((reportContainerStatus s request).1, errOf (reportContainerStatus s request).2)

/-- The handler state after a sequence of RPCs (exceptions do not roll
state back, so the run continues from the post-raise state, exactly as the
long-lived Python server does). -/
def runOps (s : ManagerState) (ops : List Op) : ManagerState :=
  ops.foldl (fun s op => (applyOp s op).1) s

/-! ## Executor (`src/executor.py`)

The Executor's `children` table maps assistent pids to tags.  The outcome
of the OS calls a tick performs (the tags dequeued from the Manager, the
result of the non-blocking `waitpid`, and whether `recursivelyDeleteCgroups`
succeeds or raises an `OSError`) are inputs of the embedded step function.
An uncaught Python exception is returned as an explicit error value; the
loop embedding stops at the first one, as `driveState` has no handler. -/

/-- Pid-keyed association-list lookup for the `children` dict. -/
def nlookup {α : Type} : List (Nat × α) → Nat → Option α
  | [], _ => none
  | (k, v) :: rest, t => if k = t then some v else nlookup rest t

/-- `del children[cpid]`. -/
def nerase {α : Type} : List (Nat × α) → Nat → List (Nat × α)
  | [], _ => []
  | (k, v) :: rest, t => if k = t then nerase rest t else (k, v) :: nerase rest t

/-- An `OSError` raised by `os.rmdir` inside `recursivelyDeleteCgroups`
(e.g. `EBUSY` when processes still exist in the cgroup). -/
structure OsError where
  errno : Nat
  deriving DecidableEq, Repr

/-- An exception escaping the Executor loop body. -/
inductive ExecError where
  | osError (e : OsError)
  | keyError (pid : Nat)
  | assertionError
  deriving DecidableEq, Repr

/-- Executor-owned state: the `children` dict (assistent pid → tag). -/
structure ExecutorState where
  children : List (Nat × String)
  deriving DecidableEq, Repr

/-- `_handleZombies` (executor.py lines 121-144): if `waitpid` reaped a
child, look up its tag (for the log line, line 137-139), then call
`recursivelyDeleteCgroups` — whose `OSError` propagates uncaught, skipping
`del self.children[cpid]` (line 144) — and only on success erase the
`children` entry. -/
def handleZombies (st : ExecutorState) (reap : Option (Nat × Nat))
    (delResult : Except OsError Unit) : ExecutorState × Option ExecError :=
  match reap with
  | none => (st, none)
  | some (cpid, _status) =>
    match nlookup st.children cpid with
    | none => (st, some (.keyError cpid))
    | some _tag =>
      match delResult with
      | .error e => (st, some (.osError e))
      | .ok _ => ({ children := nerase st.children cpid }, none)

/-- The parent branch of `_execAssistentManager` (executor.py lines
108-119) as far as the `children` table is concerned: assert the fresh pid
is not already tracked, then record it. -/
def launchAssistent (st : ExecutorState) (pid : Nat) (tag : String) :
    ExecutorState × Option ExecError :=
  if (nlookup st.children pid).isSome then (st, some .assertionError)
  else ({ children := st.children ++ [(pid, tag)] }, none)

/-- Record the launches of one tick in order, stopping at an uncaught
exception. -/
def launchAll (st : ExecutorState) : List (Nat × String) → ExecutorState × Option ExecError
  | [] => (st, none)
  | (pid, tag) :: rest =>
    match launchAssistent st pid tag with
    | (st2, none) => launchAll st2 rest
    | (st2, some e) => (st2, some e)

/-- The OS-level inputs of one iteration of `driveState` (executor.py lines
152-164): the dequeued tags with the pids `fork` returned for them, the
result of the non-blocking `waitpid`, and the outcome of the cgroup
teardown. -/
structure TickInput where
  launches : List (Nat × String)
  reap : Option (Nat × Nat)
  delResult : Except OsError Unit
  deriving Repr

/-- One iteration of the `while True` loop of `driveState`: launch an
assistent per dequeued tag, then — only if `children` is non-empty —
`_handleZombies`.  There is no `try`/`except`: an exception in either part
escapes the loop body. -/
def tick (st : ExecutorState) (inp : TickInput) : ExecutorState × Option ExecError :=
  match launchAll st inp.launches with
  | (st2, some e) => (st2, some e)
  | (st2, none) =>
    if st2.children.isEmpty then (st2, none)
    else handleZombies st2 inp.reap inp.delResult

/-- `driveState` run on a list of tick inputs: an uncaught exception
terminates the loop (and the Executor process); later ticks never run. -/
def driveStateRun (st : ExecutorState) : List TickInput → ExecutorState × Option ExecError
  | [] => (st, none)
  | inp :: rest =>
    match tick st inp with
    | (st2, none) => driveStateRun st2 rest
    | (st2, some e) => (st2, some e)

/-! ## The fork/pipe launch handshake (`_execAssistentManager`)

The child and parent of the `os.fork` at executor.py line 97 each perform a
fixed sequence of actions; the OS scheduler interleaves them.  The one
synchronization fact supplied by the OS is that the child's blocking
`read` on the pipe (line 74) can only complete after the parent has
written its byte (line 117).  Any interleaving (merge preserving each
side's program order) satisfying that read-after-write constraint is a
possible execution. -/

/-- The observable actions of the handshake, named after the source lines. -/
inductive HandshakeEvent where
  /-- child: `os.close(writeEnd)` (line 70). -/
  | childCloseWrite
  /-- child: the blocking `readEnd.read()` completes (line 74). -/
  | childReadPipe
  /-- child: `os.execv` of the assistent manager binary (line 105). -/
  | childExec
  /-- parent: `os.close(r)` (line 110). -/
  | parentCloseRead
  /-- parent: `self.children[pid] = tag` (line 114). -/
  | parentRecordChild
  /-- parent: `os.makedirs({cgPath}/{ctag})` (line 84, via `prepareChild`). -/
  | parentMkdirCgroup
  /-- parent: write the child pid into `cgroup.procs` (lines 86-88). -/
  | parentWriteCgroupProcs
  /-- parent: `os.write(w, b"1")` (line 117). -/
  | parentWritePipe
  /-- parent: `os.close(w)` (line 118). -/
  | parentCloseWrite
  deriving DecidableEq, Repr

/-- Program order of the child after the fork (lines 98-107). -/
def childEvents : List HandshakeEvent :=
  [.childCloseWrite, .childReadPipe, .childExec]

/-- Program order of the parent after the fork (lines 108-119). -/
def parentEvents : List HandshakeEvent :=
  [.parentCloseRead, .parentRecordChild, .parentMkdirCgroup,
   .parentWriteCgroupProcs, .parentWritePipe, .parentCloseWrite]

/-- All merges of two event lists that preserve the order of each, with a
fuel argument making the recursion structural (any fuel at least the sum
of the lengths gives all merges). -/
def mergesFuel {α : Type} : Nat → List α → List α → List (List α)
  | 0, xs, ys => [xs ++ ys]
  | _ + 1, [], ys => [ys]
  | _ + 1, x :: xs, [] => [x :: xs]
  | n + 1, x :: xs, y :: ys =>
    (mergesFuel n xs (y :: ys)).map (fun l => x :: l) ++
      (mergesFuel n (x :: xs) ys).map (fun l => y :: l)

/-- All merges of two event lists that preserve the order of each: the
possible schedules of the two processes. -/
def merges {α : Type} (xs ys : List α) : List (List α) :=
  mergesFuel (xs.length + ys.length) xs ys

/-- Position of the (unique) occurrence of an event in a schedule. -/
def eventIndex (l : List HandshakeEvent) (e : HandshakeEvent) : Nat :=
  l.indexOf e

/-! ## Lemmas about the dict and set models -/

theorem alookup_aupdate_self {α : Type} (l : List (String × α)) (t : String) (v : α) :
    alookup (aupdate l t v) t = some v := by
  induction l with
  | nil => simp [aupdate, alookup]
  | cons p rest ih =>
    obtain ⟨k, w⟩ := p
    by_cases hk : k = t
    · subst hk
      simp [aupdate, alookup]
    · simp [aupdate, alookup, hk, ih]

theorem alookup_aupdate_ne {α : Type} (l : List (String × α)) (t u : String) (v : α)
    (h : u ≠ t) : alookup (aupdate l t v) u = alookup l u := by
  induction l with
  | nil => simp [aupdate, alookup, Ne.symm h]
  | cons p rest ih =>
    obtain ⟨k, w⟩ := p
    by_cases hk : k = t
    · subst hk
      simp [aupdate, alookup, Ne.symm h]
    · simp [aupdate, alookup, hk, ih]

theorem alookup_aerase_self {α : Type} (l : List (String × α)) (t : String) :
    alookup (aerase l t) t = none := by
  induction l with
  | nil => simp [aerase, alookup]
  | cons p rest ih =>
    obtain ⟨k, w⟩ := p
    by_cases hk : k = t
    · simp [aerase, hk, ih]
    · simp [aerase, alookup, hk, ih]

theorem alookup_aerase_ne {α : Type} (l : List (String × α)) (t u : String)
    (h : u ≠ t) : alookup (aerase l t) u = alookup l u := by
  induction l with
  | nil => simp [aerase]
  | cons p rest ih =>
    obtain ⟨k, w⟩ := p
    by_cases hk : k = t
    · subst hk
      simp [aerase, alookup, Ne.symm h, ih]
    · simp [aerase, alookup, hk, ih]

theorem mem_sadd (l : List String) (t u : String) :
    u ∈ sadd l t ↔ u ∈ l ∨ u = t := by
  unfold sadd
  by_cases ht : t ∈ l
  · simp only [ht, if_pos]
    constructor
    · exact Or.inl
    · rintro (h | rfl)
      · exact h
      · exact ht
  · simp [ht]

theorem mem_sremove (l : List String) (t u : String) :
    u ∈ sremove l t ↔ u ∈ l ∧ u ≠ t := by
  induction l with
  | nil => simp [sremove]
  | cons x xs ih =>
    by_cases hx : x = t
    · subst hx
      rw [show sremove (x :: xs) x = sremove xs x from by rw [sremove, if_pos rfl], ih]
      simp only [List.mem_cons]
      constructor
      · rintro ⟨h1, h2⟩
        exact ⟨Or.inr h1, h2⟩
      · rintro ⟨h1 | h1, h2⟩
        · exact absurd h1 h2
        · exact ⟨h1, h2⟩
    · rw [show sremove (x :: xs) t = x :: sremove xs t from by rw [sremove, if_neg hx]]
      simp only [List.mem_cons, ih]
      constructor
      · rintro (rfl | ⟨h1, h2⟩)
        · exact ⟨Or.inl rfl, hx⟩
        · exact ⟨Or.inr h1, h2⟩
      · rintro ⟨rfl | h1, h2⟩
        · exact Or.inl rfl
        · exact Or.inr ⟨h1, h2⟩

/-! ## The inductive invariant of the Manager state -/

/-- A tag is in the running set exactly when its container exists in state
RUNNING or STOPPING (`stopContainer` marks STOPPING without touching the
set, so STOPPING tags stay in it). -/
def RunIff (s : ManagerState) : Prop :=
  ∀ t, t ∈ s.runningContainers ↔
    ∃ i, alookup s.containerInfos t = some i ∧
      (i.state = ContainerState.RUNNING ∨ i.state = ContainerState.STOPPING)

/-- A container in any non-DEAD state has no exit info. -/
def ExitNone (s : ManagerState) : Prop :=
  ∀ t i, alookup s.containerInfos t = some i →
    i.state ≠ ContainerState.DEAD → i.exitInfo = none

/-- The inductive invariant every reachable Manager state satisfies. -/
structure Inv (s : ManagerState) : Prop where
  run_iff : RunIff s
  exit_none : ExitNone s

theorem inv_initState : Inv initState := by
  constructor
  · intro t
    simp [initState, alookup]
  · intro t i h
    simp [initState, alookup] at h

theorem inv_createContainer (s : ManagerState) (request : CreateContainerRequest)
    (h : Inv s) : Inv (createContainer s request).1 := by
  unfold createContainer
  by_cases hdup : (alookup s.containerInfos request.tag).isSome
  · simpa [hdup] using h
  · simp only [hdup, if_neg, Bool.false_eq_true, not_false_eq_true]
    rw [Option.not_isSome_iff_eq_none] at hdup
    constructor
    · intro t
      by_cases ht : t = request.tag
      · subst ht
        simp only [alookup_aupdate_self]
        constructor
        · intro hmem
          obtain ⟨i, hi, hst⟩ := (h.run_iff request.tag).1 hmem
          rw [hdup] at hi
          exact absurd hi (by simp)
        · rintro ⟨i, hi, hst⟩
          obtain rfl : _ = i := Option.some.inj hi
          rcases hst with hst | hst <;> simp at hst
      · simp only [alookup_aupdate_ne _ _ _ _ ht]
        exact h.run_iff t
    · intro t i hi hst
      by_cases ht : t = request.tag
      · subst ht
        rw [alookup_aupdate_self] at hi
        obtain rfl : _ = i := Option.some.inj hi
        rfl
      · rw [alookup_aupdate_ne _ _ _ _ ht] at hi
        exact h.exit_none t i hi hst

theorem inv_startContainer (s : ManagerState) (request : StartContainerRequest)
    (h : Inv s) : Inv (startContainer s request).1 := by
  unfold startContainer
  match hl : alookup s.containerInfos request.tag with
  | none => exact h
  | some info =>
    by_cases hst : info.state ≠ ContainerState.READY
    · simpa [hst] using h
    · by_cases ham : (alookup s.assistentManagers request.tag).isSome
      · simpa [hst, ham] using h
      · simp only [hst, ham, if_neg, if_pos, not_false_eq_true, not_true_eq_false,
          Bool.false_eq_true]
        exact ⟨h.run_iff, h.exit_none⟩

theorem inv_stopContainer (s : ManagerState) (request : StopContainerRequest)
    (h : Inv s) : Inv (stopContainer s request).1 := by
  unfold stopContainer
  match hl : alookup s.containerInfos request.tag with
  | none => exact h
  | some info =>
    by_cases hst : info.state = ContainerState.STOPPING ∨ info.state = ContainerState.RUNNING
    · simp only [hst, if_pos]
      constructor
      · intro t
        by_cases ht : t = request.tag
        · subst ht
          simp only [alookup_aupdate_self]
          constructor
          · intro hmem
            exact ⟨_, rfl, Or.inr rfl⟩
          · intro _
            exact (h.run_iff request.tag).2 ⟨info, hl, hst.symm⟩
        · simp only [alookup_aupdate_ne _ _ _ _ ht]
          exact h.run_iff t
      · intro t i hi hdead
        by_cases ht : t = request.tag
        · subst ht
          rw [alookup_aupdate_self] at hi
          obtain rfl : _ = i := Option.some.inj hi
          have : info.state ≠ ContainerState.DEAD := by
            rcases hst with hst | hst <;> simp [hst]
          exact h.exit_none request.tag info hl this
        · rw [alookup_aupdate_ne _ _ _ _ ht] at hi
          exact h.exit_none t i hi hdead
    · simpa [hst] using h

theorem inv_deleteContainer (s : ManagerState) (request : DeleteContainerRequest)
    (h : Inv s) : Inv (deleteContainer s request).1 := by
  unfold deleteContainer
  match hl : alookup s.containerInfos request.tag with
  | none => exact h
  | some info =>
    by_cases hact : info.state = ContainerState.RUNNING ∨ info.state = ContainerState.STOPPING
    · simpa [hact] using h
    · simp only [hact, if_neg, not_false_eq_true]
      constructor
      · intro t
        by_cases ht : t = request.tag
        · subst ht
          simp only [alookup_aerase_self]
          constructor
          · intro hmem
            obtain ⟨i, hi, hsti⟩ := (h.run_iff request.tag).1 hmem
            rw [hl] at hi
            obtain rfl : _ = i := Option.some.inj hi
            exact absurd hsti hact
          · rintro ⟨i, hi, _⟩
            exact absurd hi (by simp)
        · simp only [alookup_aerase_ne _ _ _ ht]
          exact h.run_iff t
      · intro t i hi hdead
        by_cases ht : t = request.tag
        · subst ht
          rw [alookup_aerase_self] at hi
          exact absurd hi (by simp)
        · rw [alookup_aerase_ne _ _ _ ht] at hi
          exact h.exit_none t i hi hdead

theorem listContainers_state (s : ManagerState) (request : ListContainerRequest) :
    (listContainers s request).1 = s := by
  unfold listContainers
  split
  · rfl
  · rfl
  · split <;> rfl

theorem inv_reportContainerStatus (s : ManagerState)
    (request : ReportContainerStatusRequest) (h : Inv s) :
    Inv (reportContainerStatus s request).1 := by
  unfold reportContainerStatus
  match hl : alookup s.containerInfos request.tag with
  | none => exact h
  | some info =>
    dsimp only
    by_cases hrun : request.state = ContainerState.RUNNING ∧ info.state = ContainerState.READY
    · rw [if_pos hrun]
      match ham : alookup s.assistentManagers request.tag with
      | none => exact h
      | some am =>
        constructor
        · intro t
          by_cases ht : t = request.tag
          · subst ht
            simp only [alookup_aupdate_self, mem_sadd]
            constructor
            · intro _
              exact ⟨_, rfl, Or.inl rfl⟩
            · intro _
              exact Or.inr trivial
          · simp only [alookup_aupdate_ne _ _ _ _ ht, mem_sadd]
            constructor
            · rintro (hmem | hmem)
              · exact (h.run_iff t).1 hmem
              · exact absurd hmem ht
            · intro hx
              exact Or.inl ((h.run_iff t).2 hx)
        · intro t i hi hdead
          by_cases ht : t = request.tag
          · subst ht
            rw [alookup_aupdate_self] at hi
            obtain rfl : _ = i := Option.some.inj hi
            exact h.exit_none request.tag info hl (by simp [hrun.2])
          · rw [alookup_aupdate_ne _ _ _ _ ht] at hi
            exact h.exit_none t i hi hdead
    · by_cases hdead : request.state = ContainerState.DEAD
      · rw [if_neg hrun, if_pos hdead]
        by_cases hmem : request.tag ∈ s.runningContainers
        · rw [if_pos hmem]
          constructor
          · intro t
            by_cases ht : t = request.tag
            · subst ht
              simp only [alookup_aupdate_self, mem_sremove]
              constructor
              · rintro ⟨_, hne⟩
                exact absurd rfl hne
              · rintro ⟨i, hi, hsti⟩
                obtain rfl : _ = i := Option.some.inj hi
                rcases hsti with hsti | hsti <;> simp at hsti
            · simp only [alookup_aupdate_ne _ _ _ _ ht, mem_sremove]
              constructor
              · rintro ⟨hm, _⟩
                exact (h.run_iff t).1 hm
              · intro hx
                exact ⟨(h.run_iff t).2 hx, ht⟩
          · intro t i hi hdead2
            by_cases ht : t = request.tag
            · subst ht
              rw [alookup_aupdate_self] at hi
              obtain rfl : _ = i := Option.some.inj hi
              simp at hdead2
            · rw [alookup_aupdate_ne _ _ _ _ ht] at hi
              exact h.exit_none t i hi hdead2
        · rw [if_neg hmem]
          constructor
          · intro t
            by_cases ht : t = request.tag
            · subst ht
              simp only [alookup_aupdate_self]
              constructor
              · intro hm
                exact absurd hm hmem
              · rintro ⟨i, hi, hsti⟩
                obtain rfl : _ = i := Option.some.inj hi
                rcases hsti with hsti | hsti <;> simp at hsti
            · simp only [alookup_aupdate_ne _ _ _ _ ht]
              exact h.run_iff t
          · intro t i hi hdead2
            by_cases ht : t = request.tag
            · subst ht
              rw [alookup_aupdate_self] at hi
              obtain rfl : _ = i := Option.some.inj hi
              simp at hdead2
            · rw [alookup_aupdate_ne _ _ _ _ ht] at hi
              exact h.exit_none t i hi hdead2
      · rw [if_neg hrun, if_neg hdead]
        exact h

theorem inv_applyOp (s : ManagerState) (op : Op) (h : Inv s) :
    Inv (applyOp s op).1 := by
  match op with
  | .create request => exact inv_createContainer s request h
  | .start request => exact inv_startContainer s request h
  | .stop request => exact inv_stopContainer s request h
  | .delete request => exact inv_deleteContainer s request h
  | .list request =>
    show Inv (listContainers s request).1
    rw [listContainers_state]
    exact h
  | .dequeue => exact ⟨h.run_iff, h.exit_none⟩
  | .getRunning => exact h
  | .getAMStatus request => exact h
  | .report request => exact inv_reportContainerStatus s request h

theorem inv_runOps (s : ManagerState) (ops : List Op) (h : Inv s) :
    Inv (runOps s ops) := by
  induction ops generalizing s with
  | nil => exact h
  | cons op rest ih => exact ih (applyOp s op).1 (inv_applyOp s op h)

/-! ## The runnable-queue invariant

It only survives operations that do not target a currently enqueued tag:
`deleteContainer` can erase an enqueued container and `reportContainerStatus`
can transition one, leaving stale queue entries. -/

/-- Every enqueued tag has a ContainerInfo in state READY and an
AssistentManagerInfo. -/
def QueueOk (s : ManagerState) : Prop :=
  ∀ t, t ∈ s.runnable →
    ∃ i, alookup s.containerInfos t = some i ∧
      i.state = ContainerState.READY ∧
      (alookup s.assistentManagers t).isSome = true

/-- The operation does not delete or report on a currently enqueued tag. -/
def opQueueSafe (s : ManagerState) : Op → Bool
  | .delete request => !(decide (request.tag ∈ s.runnable))
  | .report request => !(decide (request.tag ∈ s.runnable))
  | _ => true

/-- Every operation of the sequence is queue-safe in the state it runs in. -/
def seqQueueSafe : ManagerState → List Op → Bool
  | _, [] => true
  | s, op :: rest => opQueueSafe s op && seqQueueSafe (applyOp s op).1 rest

theorem queueOk_initState : QueueOk initState := by
  intro t ht
  simp [initState] at ht

theorem queueOk_applyOp (s : ManagerState) (op : Op) (hq : QueueOk s)
    (hsafe : opQueueSafe s op = true) : QueueOk (applyOp s op).1 := by
  match op with
  | .create request =>
    show QueueOk (createContainer s request).1
    unfold createContainer
    by_cases hdup : (alookup s.containerInfos request.tag).isSome
    · simpa [hdup] using hq
    · rw [Option.not_isSome_iff_eq_none] at hdup
      simp only [hdup, Option.isSome_none, Bool.false_eq_true, if_neg, not_false_eq_true]
      intro t ht
      obtain ⟨i, hi, hr, ha⟩ := hq t ht
      by_cases heq : t = request.tag
      · subst heq
        rw [hdup] at hi
        exact absurd hi (by simp)
      · exact ⟨i, by rw [alookup_aupdate_ne _ _ _ _ heq]; exact hi, hr, ha⟩
  | .start request =>
    show QueueOk (startContainer s request).1
    unfold startContainer
    match hl : alookup s.containerInfos request.tag with
    | none => exact hq
    | some info =>
      by_cases hst : info.state ≠ ContainerState.READY
      · simpa [hst] using hq
      · by_cases ham : (alookup s.assistentManagers request.tag).isSome
        · simpa [hst, ham] using hq
        · rw [not_not] at hst
          simp only [hst, ne_eq, not_true_eq_false, Bool.false_eq_true, if_neg, ham,
            not_false_eq_true]
          intro t ht
          rw [List.mem_append] at ht
          by_cases heq : t = request.tag
          · subst heq
            exact ⟨info, hl, hst, by rw [alookup_aupdate_self]; rfl⟩
          · rcases ht with ht | ht
            · obtain ⟨i, hi, hr, ha⟩ := hq t ht
              exact ⟨i, hi, hr, by rw [alookup_aupdate_ne _ _ _ _ heq]; exact ha⟩
            · simp at ht
              exact absurd ht heq
  | .stop request =>
    show QueueOk (stopContainer s request).1
    unfold stopContainer
    match hl : alookup s.containerInfos request.tag with
    | none => exact hq
    | some info =>
      dsimp only
      by_cases hst : info.state = ContainerState.STOPPING ∨ info.state = ContainerState.RUNNING
      · rw [if_pos hst]
        intro t ht
        obtain ⟨i, hi, hr, ha⟩ := hq t ht
        by_cases heq : t = request.tag
        · subst heq
          rw [hl] at hi
          obtain rfl : _ = i := Option.some.inj hi
          rcases hst with hst | hst <;> rw [hr] at hst <;> simp at hst
        · exact ⟨i, by rw [alookup_aupdate_ne _ _ _ _ heq]; exact hi, hr, ha⟩
      · simpa [hst] using hq
  | .delete request =>
    show QueueOk (deleteContainer s request).1
    have hnotin : request.tag ∉ s.runnable := by
      have := hsafe
      unfold opQueueSafe at this
      simpa using this
    unfold deleteContainer
    match hl : alookup s.containerInfos request.tag with
    | none => exact hq
    | some info =>
      dsimp only
      by_cases hact : info.state = ContainerState.RUNNING ∨ info.state = ContainerState.STOPPING
      · simpa [hact] using hq
      · rw [if_neg hact]
        intro t ht
        obtain ⟨i, hi, hr, ha⟩ := hq t ht
        have heq : t ≠ request.tag := fun hh => hnotin (hh ▸ ht)
        exact ⟨i, by rw [alookup_aerase_ne _ _ _ heq]; exact hi, hr,
          by rw [alookup_aerase_ne _ _ _ heq]; exact ha⟩
  | .report request =>
    show QueueOk (reportContainerStatus s request).1
    have hnotin : request.tag ∉ s.runnable := by
      have := hsafe
      unfold opQueueSafe at this
      simpa using this
    unfold reportContainerStatus
    match hl : alookup s.containerInfos request.tag with
    | none => exact hq
    | some info =>
      dsimp only
      by_cases hrun : request.state = ContainerState.RUNNING ∧ info.state = ContainerState.READY
      · rw [if_pos hrun]
        match ham : alookup s.assistentManagers request.tag with
        | none => exact hq
        | some am =>
          intro t ht
          obtain ⟨i, hi, hr, ha⟩ := hq t ht
          have heq : t ≠ request.tag := fun hh => hnotin (hh ▸ ht)
          exact ⟨i, by rw [alookup_aupdate_ne _ _ _ _ heq]; exact hi, hr,
            by rw [alookup_aupdate_ne _ _ _ _ heq]; exact ha⟩
      · by_cases hdead : request.state = ContainerState.DEAD
        · rw [if_neg hrun, if_pos hdead]
          by_cases hmem : request.tag ∈ s.runningContainers
          · rw [if_pos hmem]
            intro t ht
            obtain ⟨i, hi, hr, ha⟩ := hq t ht
            have heq : t ≠ request.tag := fun hh => hnotin (hh ▸ ht)
            exact ⟨i, by rw [alookup_aupdate_ne _ _ _ _ heq]; exact hi, hr, ha⟩
          · rw [if_neg hmem]
            intro t ht
            obtain ⟨i, hi, hr, ha⟩ := hq t ht
            have heq : t ≠ request.tag := fun hh => hnotin (hh ▸ ht)
            exact ⟨i, by rw [alookup_aupdate_ne _ _ _ _ heq]; exact hi, hr, ha⟩
        · rw [if_neg hrun, if_neg hdead]
          exact hq
  | .list request =>
    show QueueOk (listContainers s request).1
    rw [listContainers_state]
    exact hq
  | .dequeue =>
    intro t ht
    simp [applyOp, dequeueReadyContainers] at ht
  | .getRunning => exact hq
  | .getAMStatus request => exact hq

theorem queueOk_runOps (s : ManagerState) (ops : List Op) (hq : QueueOk s)
    (hsafe : seqQueueSafe s ops = true) : QueueOk (runOps s ops) := by
  induction ops generalizing s with
  | nil => exact hq
  | cons op rest ih =>
    rw [seqQueueSafe, Bool.and_eq_true] at hsafe
    exact ih (applyOp s op).1 (queueOk_applyOp s op hq hsafe.1) hsafe.2

/-! ## Claims -/

/-- C8: `dequeueReadyContainers` returns the queued tags exactly as stored
(the queue is built by FIFO appends, so this is enqueue order), clears the
queue while leaving every other table unchanged, and an immediately
following call returns the empty list — so each enqueued tag is delivered
to exactly one caller. -/
theorem dequeue_returns_and_clears_fifo (s : ManagerState) :
    (dequeueReadyContainers s).2 = s.runnable ∧
    (dequeueReadyContainers s).1.runnable = [] ∧
    (dequeueReadyContainers s).1.containerInfos = s.containerInfos ∧
    (dequeueReadyContainers s).1.assistentManagers = s.assistentManagers ∧
    (dequeueReadyContainers s).1.runningContainers = s.runningContainers ∧
    (dequeueReadyContainers (dequeueReadyContainers s).1).2 = [] :=
  ⟨rfl, rfl, rfl, rfl, rfl, rfl⟩

/-- C10: in every schedule of the fork/pipe handshake — a merge of the
child's and the parent's program order in which the child's blocking pipe
read completes only after the parent's one-byte pipe write — the child's
`exec` of the Assistent binary happens after the parent's write of the
child pid into `cgroup.procs`. -/
theorem handshake_exec_after_cgroup_write :
    ∀ l ∈ merges childEvents parentEvents,
      eventIndex l HandshakeEvent.parentWritePipe <
        eventIndex l HandshakeEvent.childReadPipe →
      eventIndex l HandshakeEvent.parentWriteCgroupProcs <
        eventIndex l HandshakeEvent.childExec := by
  decide

/-- Witness for C10: the schedule running the parent to completion first
is a merge satisfying the pipe constraint, and in it the `cgroup.procs`
write precedes the exec. -/
theorem handshake_exec_after_cgroup_write_witness :
    (parentEvents ++ childEvents) ∈ merges childEvents parentEvents ∧
    eventIndex (parentEvents ++ childEvents) HandshakeEvent.parentWritePipe <
      eventIndex (parentEvents ++ childEvents) HandshakeEvent.childReadPipe ∧
    eventIndex (parentEvents ++ childEvents) HandshakeEvent.parentWriteCgroupProcs <
      eventIndex (parentEvents ++ childEvents) HandshakeEvent.childExec :=
  ⟨by decide, by decide,
    handshake_exec_after_cgroup_write (parentEvents ++ childEvents) (by decide) (by decide)⟩

/-- C9 counterexample: with one reaped assistent whose cgroup removal
raises `OSError` (errno 16, `EBUSY`), the `driveState` run aborts at that
tick with the error escaping, the `children` entry still present, and the
following tick — whose teardown would have succeeded — is never executed:
the failure is not retried and it does abort the Executor. -/
theorem cgroup_teardown_failure_aborts_executor :
    driveStateRun { children := [(5, "t")] }
      [{ launches := [], reap := some (5, 0), delResult := .error { errno := 16 } },
       { launches := [], reap := some (5, 0), delResult := .ok () }] =
      ({ children := [(5, "t")] }, some (.osError { errno := 16 })) ∧
    tick { children := [(5, "t")] }
      { launches := [], reap := some (5, 0), delResult := .ok () } =
      ({ children := [] }, none) := by
  constructor
  · rfl
  · rfl

/-- C9 (amended): an `OSError` from the cgroup teardown propagates out of
`_handleZombies` uncaught, leaving the reaped child's `children` entry in
place (it is only deleted after a successful teardown), and out of the
`driveState` loop, which aborts at that tick so that no later tick runs to
retry the cleanup. -/
theorem cgroup_teardown_failure_propagates :
    (∀ (st : ExecutorState) (cpid status : Nat) (tag : String) (e : OsError),
      nlookup st.children cpid = some tag →
      handleZombies st (some (cpid, status)) (.error e) = (st, some (.osError e))) ∧
    (∀ (st st2 : ExecutorState) (inp : TickInput) (e : ExecError) (rest : List TickInput),
      tick st inp = (st2, some e) →
      driveStateRun st (inp :: rest) = (st2, some e)) := by
  constructor
  · intro st cpid status tag e hl
    unfold handleZombies
    dsimp only
    rw [hl]
  · intro st st2 inp e rest htick
    unfold driveStateRun
    rw [htick]

/-- Witness for C9: a concrete reaped pid with a failing teardown, run
through both conjuncts of the amended statement. -/
theorem cgroup_teardown_failure_propagates_witness :
    nlookup (ExecutorState.mk [(7, "w")]).children 7 = some "w" ∧
    handleZombies { children := [(7, "w")] } (some (7, 0)) (.error { errno := 16 }) =
      ({ children := [(7, "w")] }, some (.osError { errno := 16 })) ∧
    driveStateRun { children := [(7, "w")] }
      [{ launches := [], reap := some (7, 0), delResult := .error { errno := 16 } }] =
      ({ children := [(7, "w")] }, some (.osError { errno := 16 })) :=
  ⟨by decide,
    cgroup_teardown_failure_propagates.1 { children := [(7, "w")] } 7 0 "w"
      { errno := 16 } (by decide),
    cgroup_teardown_failure_propagates.2 { children := [(7, "w")] }
      { children := [(7, "w")] }
      { launches := [], reap := some (7, 0), delResult := .error { errno := 16 } }
      (.osError { errno := 16 }) [] (by decide)⟩

/-- C2 counterexample: after create, start, a RUNNING report and a
`stopContainer`, the tag `two` is still a member of the running set while
its ContainerInfo is in state STOPPING, not RUNNING — `stopContainer`
marks STOPPING without removing the tag from the set, refuting the
claimed iff. -/
theorem runningSet_holds_stopping_tag :
    "two" ∈ (runOps initState
      [Op.create { tag := "two" },
       Op.start { tag := "two", command := { cmd := "/bin/echo", arguments := ["hi"] } },
       Op.report { tag := "two", state := ContainerState.RUNNING,
                   pid := some 10, workloadPid := some 20 },
       Op.stop { tag := "two" }]).runningContainers ∧
    alookup (runOps initState
      [Op.create { tag := "two" },
       Op.start { tag := "two", command := { cmd := "/bin/echo", arguments := ["hi"] } },
       Op.report { tag := "two", state := ContainerState.RUNNING,
                   pid := some 10, workloadPid := some 20 },
       Op.stop { tag := "two" }]).containerInfos "two" =
      some { tag := "two", state := ContainerState.STOPPING, exitInfo := none } := by
  constructor
  · decide
  · decide

/-- C2 (amended): after every sequence of Manager operations, a tag is a
member of the RunningSet iff its ContainerInfo exists and has state
RUNNING **or STOPPING** (`stopContainer` does not remove a stopping tag
from the set; a DEAD report does). -/
theorem runningSet_iff_running_or_stopping (ops : List Op) (t : String) :
    t ∈ (runOps initState ops).runningContainers ↔
      ∃ i, alookup (runOps initState ops).containerInfos t = some i ∧
        (i.state = ContainerState.RUNNING ∨ i.state = ContainerState.STOPPING) :=
  (inv_runOps initState ops inv_initState).run_iff t

/-- C4 counterexample: create, start, delete — `deleteContainer` accepts a
READY container even while its tag is enqueued and erases its
ContainerInfo (and AssistentManagerInfo) without purging the queue, so
the RunnableQueue holds a tag with no ContainerInfo at all. -/
theorem runnableQueue_stale_after_delete :
    "t" ∈ (runOps initState
      [Op.create { tag := "t" },
       Op.start { tag := "t", command := { cmd := "/bin/echo", arguments := ["hi"] } },
       Op.delete { tag := "t" }]).runnable ∧
    alookup (runOps initState
      [Op.create { tag := "t" },
       Op.start { tag := "t", command := { cmd := "/bin/echo", arguments := ["hi"] } },
       Op.delete { tag := "t" }]).containerInfos "t" = none := by
  constructor
  · decide
  · decide

/-- C4 (amended): after every sequence of Manager operations in which no
`deleteContainer` and no `reportContainerStatus` targets a tag that is
currently enqueued, every element of the RunnableQueue is a tag whose
ContainerInfo exists in state READY and whose AssistentManagerInfo
exists.  (Deleting an enqueued READY tag, or reporting on an enqueued
tag, breaks the property — the queue is never purged.) -/
theorem runnableQueue_ready_with_assistent (ops : List Op)
    (hsafe : seqQueueSafe initState ops = true) (t : String)
    (ht : t ∈ (runOps initState ops).runnable) :
    ∃ i, alookup (runOps initState ops).containerInfos t = some i ∧
      i.state = ContainerState.READY ∧
      (alookup (runOps initState ops).assistentManagers t).isSome = true :=
  queueOk_runOps initState ops queueOk_initState hsafe t ht

/-- Witness for C4: a created-and-started container is enqueued with a
READY ContainerInfo and an AssistentManagerInfo. -/
theorem runnableQueue_ready_with_assistent_witness :
    seqQueueSafe initState
      [Op.create { tag := "t" },
       Op.start { tag := "t", command := { cmd := "/bin/echo", arguments := ["hi"] } }] = true ∧
    "t" ∈ (runOps initState
      [Op.create { tag := "t" },
       Op.start { tag := "t", command := { cmd := "/bin/echo", arguments := ["hi"] } }]).runnable ∧
    ∃ i, alookup (runOps initState
      [Op.create { tag := "t" },
       Op.start { tag := "t", command := { cmd := "/bin/echo", arguments := ["hi"] } }]).containerInfos "t" = some i ∧
      i.state = ContainerState.READY ∧
      (alookup (runOps initState
        [Op.create { tag := "t" },
         Op.start { tag := "t", command := { cmd := "/bin/echo", arguments := ["hi"] } }]).assistentManagers "t").isSome = true :=
  ⟨by decide, by decide,
    runnableQueue_ready_with_assistent _ (by decide) "t" (by decide)⟩

/-- C6 counterexample: the natural lifecycle with a DEAD report whose
`exitInfo` field is unset (exactly what both bundled Assistent variants
send — neither ever assigns `request.exitInfo`) leaves the container in
state DEAD with `exitInfo` unset, refuting `state=DEAD ⇒ exitInfo set`. -/
theorem dead_without_exitInfo :
    alookup (runOps initState
      [Op.create { tag := "t" },
       Op.start { tag := "t", command := { cmd := "/bin/echo", arguments := ["hi"] } },
       Op.report { tag := "t", state := ContainerState.RUNNING,
                   pid := some 10, workloadPid := some 20 },
       Op.report { tag := "t", state := ContainerState.DEAD }]).containerInfos "t" =
      some { tag := "t", state := ContainerState.DEAD, exitInfo := none } := by
  decide

/-- C6 (amended): after every sequence of Manager operations, a container
in any non-DEAD state has `exitInfo` unset; and a DEAD report on a known
tag stores the *request's* `exitInfo` field while setting the state to
DEAD — so `exitInfo` is set in state DEAD exactly when the DEAD report
carried one (the bundled Assistent never attaches it). -/
theorem exitInfo_set_only_when_dead :
    (∀ (ops : List Op) (t : String) (i : ContainerInfo),
      alookup (runOps initState ops).containerInfos t = some i →
      i.state ≠ ContainerState.DEAD → i.exitInfo = none) ∧
    (∀ (s : ManagerState) (request : ReportContainerStatusRequest) (i : ContainerInfo),
      alookup s.containerInfos request.tag = some i →
      request.state = ContainerState.DEAD →
      alookup (reportContainerStatus s request).1.containerInfos request.tag =
        some { i with state := ContainerState.DEAD, exitInfo := request.exitInfo }) := by
  constructor
  · intro ops t i hi hne
    exact (inv_runOps initState ops inv_initState).exit_none t i hi hne
  · intro s request i hi hdead
    unfold reportContainerStatus
    rw [hi]
    dsimp only
    have hrun : ¬(request.state = ContainerState.RUNNING ∧ i.state = ContainerState.READY) := by
      rintro ⟨h1, _⟩
      rw [hdead] at h1
      exact absurd h1 (by simp)
    rw [if_neg hrun, if_pos hdead]
    by_cases hmem : request.tag ∈ s.runningContainers
    · rw [if_pos hmem]
      exact alookup_aupdate_self _ _ _
    · rw [if_neg hmem]
      exact alookup_aupdate_self _ _ _

/-- Witness for C6: a READY container has no exitInfo (first conjunct),
and a DEAD report with an attached exitInfo stores it (second conjunct). -/
theorem exitInfo_set_only_when_dead_witness :
    alookup (runOps initState [Op.create { tag := "t" }]).containerInfos "t" =
      some { tag := "t", state := ContainerState.READY, exitInfo := none } ∧
    ({ tag := "t", state := ContainerState.READY, exitInfo := none } : ContainerInfo).exitInfo = none ∧
    alookup (reportContainerStatus (runOps initState [Op.create { tag := "t" }])
      { tag := "t", state := ContainerState.DEAD,
        exitInfo := some { code := ExitCode.EXIT, status := 0 } }).1.containerInfos "t" =
      some { tag := "t", state := ContainerState.DEAD,
             exitInfo := some { code := ExitCode.EXIT, status := 0 } } :=
  ⟨by decide,
    exitInfo_set_only_when_dead.1 [Op.create { tag := "t" }] "t"
      { tag := "t", state := ContainerState.READY, exitInfo := none }
      (by decide) (by decide),
    exitInfo_set_only_when_dead.2 (runOps initState [Op.create { tag := "t" }])
      { tag := "t", state := ContainerState.DEAD,
        exitInfo := some { code := ExitCode.EXIT, status := 0 } }
      { tag := "t", state := ContainerState.READY, exitInfo := none }
      (by decide) (by decide)⟩

/-- C1 counterexample: after `one` reaches DEAD with exitInfo
`{EXIT, 0}`, a second DEAD report carrying exitInfo `{SIGNAL, 9}` does
not return OKAY: it raises `KeyError` (from
`runningContainers.remove`) *after* overwriting the stored exitInfo with
the new one. -/
theorem second_dead_report_not_okay :
    (reportContainerStatus (runOps initState
      [Op.create { tag := "one" },
       Op.start { tag := "one", command := { cmd := "/bin/echo", arguments := ["hi"] } },
       Op.report { tag := "one", state := ContainerState.RUNNING,
                   pid := some 10, workloadPid := some 20 },
       Op.report { tag := "one", state := ContainerState.DEAD,
                   exitInfo := some { code := ExitCode.EXIT, status := 0 } }])
      { tag := "one", state := ContainerState.DEAD,
        exitInfo := some { code := ExitCode.SIGNAL, status := 9 } }).2 =
      .error (.keyError "one") ∧
    alookup (runOps initState
      [Op.create { tag := "one" },
       Op.start { tag := "one", command := { cmd := "/bin/echo", arguments := ["hi"] } },
       Op.report { tag := "one", state := ContainerState.RUNNING,
                   pid := some 10, workloadPid := some 20 },
       Op.report { tag := "one", state := ContainerState.DEAD,
                   exitInfo := some { code := ExitCode.EXIT, status := 0 } }]).containerInfos
      "one" =
      some { tag := "one", state := ContainerState.DEAD,
             exitInfo := some { code := ExitCode.EXIT, status := 0 } } ∧
    alookup (reportContainerStatus (runOps initState
      [Op.create { tag := "one" },
       Op.start { tag := "one", command := { cmd := "/bin/echo", arguments := ["hi"] } },
       Op.report { tag := "one", state := ContainerState.RUNNING,
                   pid := some 10, workloadPid := some 20 },
       Op.report { tag := "one", state := ContainerState.DEAD,
                   exitInfo := some { code := ExitCode.EXIT, status := 0 } }])
      { tag := "one", state := ContainerState.DEAD,
        exitInfo := some { code := ExitCode.SIGNAL, status := 9 } }).1.containerInfos
      "one" =
      some { tag := "one", state := ContainerState.DEAD,
             exitInfo := some { code := ExitCode.SIGNAL, status := 9 } } := by
  refine ⟨?_, ?_, ?_⟩
  · decide
  · decide
  · decide

/-- C1 (amended): for every reachable state and every tag whose
ContainerInfo is DEAD, a further DEAD report keeps the tag in state DEAD
and leaves the RunningSet unchanged, but it is not a no-op returning
OKAY: it overwrites the stored exitInfo with the request's exitInfo and
raises `KeyError` (the tag is no longer in the RunningSet, so
`runningContainers.remove` fails). -/
theorem second_dead_report_overwrites_and_raises (ops : List Op)
    (request : ReportContainerStatusRequest) (i : ContainerInfo)
    (hl : alookup (runOps initState ops).containerInfos request.tag = some i)
    (hdead : i.state = ContainerState.DEAD)
    (hreq : request.state = ContainerState.DEAD) :
    reportContainerStatus (runOps initState ops) request =
      ({ runOps initState ops with
          containerInfos := (aupdate (runOps initState ops).containerInfos request.tag
            { i with state := ContainerState.DEAD, exitInfo := request.exitInfo }) },
       .error (.keyError request.tag)) := by
  have hinv := inv_runOps initState ops inv_initState
  have hnm : request.tag ∉ (runOps initState ops).runningContainers := by
    intro hmem
    obtain ⟨j, hj, hst⟩ := (hinv.run_iff request.tag).1 hmem
    rw [hl] at hj
    obtain rfl : _ = j := Option.some.inj hj
    rw [hdead] at hst
    rcases hst with hst | hst <;> exact absurd hst (by simp)
  unfold reportContainerStatus
  rw [hl]
  dsimp only
  have hrun : ¬(request.state = ContainerState.RUNNING ∧ i.state = ContainerState.READY) := by
    rintro ⟨h1, _⟩
    rw [hreq] at h1
    exact absurd h1 (by simp)
  rw [if_neg hrun, if_pos hreq, if_neg hnm]

/-- Witness for C1: the concrete double-DEAD scenario run through the
amended statement. -/
theorem second_dead_report_overwrites_and_raises_witness :
    alookup (runOps initState
      [Op.create { tag := "w1" },
       Op.start { tag := "w1", command := { cmd := "/bin/echo", arguments := ["hi"] } },
       Op.report { tag := "w1", state := ContainerState.RUNNING,
                   pid := some 10, workloadPid := some 20 },
       Op.report { tag := "w1", state := ContainerState.DEAD,
                   exitInfo := some { code := ExitCode.EXIT, status := 0 } }]).containerInfos
      "w1" =
      some { tag := "w1", state := ContainerState.DEAD,
             exitInfo := some { code := ExitCode.EXIT, status := 0 } } ∧
    reportContainerStatus (runOps initState
      [Op.create { tag := "w1" },
       Op.start { tag := "w1", command := { cmd := "/bin/echo", arguments := ["hi"] } },
       Op.report { tag := "w1", state := ContainerState.RUNNING,
                   pid := some 10, workloadPid := some 20 },
       Op.report { tag := "w1", state := ContainerState.DEAD,
                   exitInfo := some { code := ExitCode.EXIT, status := 0 } }])
      { tag := "w1", state := ContainerState.DEAD,
        exitInfo := some { code := ExitCode.SIGNAL, status := 9 } } =
      ({ runOps initState
          [Op.create { tag := "w1" },
           Op.start { tag := "w1", command := { cmd := "/bin/echo", arguments := ["hi"] } },
           Op.report { tag := "w1", state := ContainerState.RUNNING,
                       pid := some 10, workloadPid := some 20 },
           Op.report { tag := "w1", state := ContainerState.DEAD,
                       exitInfo := some { code := ExitCode.EXIT, status := 0 } }] with
          containerInfos := (aupdate (runOps initState
            [Op.create { tag := "w1" },
             Op.start { tag := "w1", command := { cmd := "/bin/echo", arguments := ["hi"] } },
             Op.report { tag := "w1", state := ContainerState.RUNNING,
                         pid := some 10, workloadPid := some 20 },
             Op.report { tag := "w1", state := ContainerState.DEAD,
                         exitInfo := some { code := ExitCode.EXIT, status := 0 } }]).containerInfos
            "w1"
            { tag := "w1", state := ContainerState.DEAD,
              exitInfo := some { code := ExitCode.SIGNAL, status := 9 } }) },
       .error (.keyError "w1")) :=
  ⟨by decide,
    second_dead_report_overwrites_and_raises
      [Op.create { tag := "w1" },
       Op.start { tag := "w1", command := { cmd := "/bin/echo", arguments := ["hi"] } },
       Op.report { tag := "w1", state := ContainerState.RUNNING,
                   pid := some 10, workloadPid := some 20 },
       Op.report { tag := "w1", state := ContainerState.DEAD,
                   exitInfo := some { code := ExitCode.EXIT, status := 0 } }]
      { tag := "w1", state := ContainerState.DEAD,
        exitInfo := some { code := ExitCode.SIGNAL, status := 9 } }
      { tag := "w1", state := ContainerState.DEAD,
        exitInfo := some { code := ExitCode.EXIT, status := 0 } }
      (by decide) (by decide) (by decide)⟩

/-- C5 counterexample: after create + start, the tag `d` is still READY,
yet a second `startContainer` neither succeeds nor raises
INVALID_OPERATION — it trips the handler's own
`assert tag not in assistentManagers` (an `AssertionError`), refuting
both "succeeds for every READY tag" and "fails exactly when absent or
not READY". -/
theorem start_on_ready_tag_asserts :
    alookup (runOps initState
      [Op.create { tag := "d" },
       Op.start { tag := "d", command := { cmd := "/bin/echo", arguments := ["hi"] } }]).containerInfos
      "d" = some { tag := "d", state := ContainerState.READY, exitInfo := none } ∧
    startContainer (runOps initState
      [Op.create { tag := "d" },
       Op.start { tag := "d", command := { cmd := "/bin/echo", arguments := ["hi"] } }])
      { tag := "d", command := { cmd := "/bin/echo", arguments := ["hi"] } } =
      (runOps initState
        [Op.create { tag := "d" },
         Op.start { tag := "d", command := { cmd := "/bin/echo", arguments := ["hi"] } }],
       .error .assertionError) := by
  constructor
  · decide
  · decide

/-- C5 (amended): `startContainer` on a READY tag succeeds — materializing
`AssistentManagerInfo(tag, command)`, appending the tag to the runnable
queue and leaving the state READY — *provided no AssistentManagerInfo
exists yet*; it raises INVALID_OPERATION exactly when the tag is absent
or not READY; and on a READY tag that already has an
AssistentManagerInfo (a repeated start) it raises AssertionError,
mutating nothing. -/
theorem startContainer_characterization (s : ManagerState)
    (request : StartContainerRequest) :
    (∀ i, alookup s.containerInfos request.tag = some i →
      i.state = ContainerState.READY →
      alookup s.assistentManagers request.tag = none →
      startContainer s request =
        ({ s with
            assistentManagers := (aupdate s.assistentManagers request.tag
              { tag := request.tag, command := request.command }),
            runnable := s.runnable ++ [request.tag] },
         .ok ())) ∧
    (∀ i, alookup s.containerInfos request.tag = some i →
      i.state = ContainerState.READY →
      (alookup s.assistentManagers request.tag).isSome = true →
      startContainer s request = (s, .error .assertionError)) ∧
    ((∃ r, (startContainer s request).2 = .error (.invalidOperation r)) ↔
      (alookup s.containerInfos request.tag = none ∨
        ∃ i, alookup s.containerInfos request.tag = some i ∧
          i.state ≠ ContainerState.READY)) := by
  refine ⟨?_, ?_, ?_⟩
  · intro i hl hready hnone
    unfold startContainer
    rw [hl]
    dsimp only
    rw [if_neg (show ¬i.state ≠ ContainerState.READY by simp [hready]),
      hnone]
    rfl
  · intro i hl hready hsome
    unfold startContainer
    rw [hl]
    dsimp only
    rw [if_neg (show ¬i.state ≠ ContainerState.READY by simp [hready]),
      if_pos hsome]
  · match hl : alookup s.containerInfos request.tag with
    | none =>
      apply iff_of_true
      · refine ⟨"container: " ++ request.tag ++ " does not exist", ?_⟩
        unfold startContainer
        rw [hl]
      · exact Or.inl rfl
    | some info =>
      by_cases hready : info.state = ContainerState.READY
      · apply iff_of_false
        · rintro ⟨r, hr⟩
          unfold startContainer at hr
          rw [hl] at hr
          dsimp only at hr
          rw [if_neg (show ¬info.state ≠ ContainerState.READY by simp [hready])] at hr
          by_cases hsome : (alookup s.assistentManagers request.tag).isSome
          · rw [if_pos hsome] at hr
            exact PyError.noConfusion (Except.error.inj hr)
          · rw [if_neg hsome] at hr
            exact Except.noConfusion hr
        · rintro (h | ⟨i, hi, hne⟩)
          · exact Option.noConfusion h
          · obtain rfl : _ = i := Option.some.inj hi
            exact hne hready
      · apply iff_of_true
        · refine ⟨"container: " ++ request.tag ++ " state mismatch", ?_⟩
          unfold startContainer
          rw [hl]
          dsimp only
          rw [if_pos hready]
        · exact Or.inr ⟨info, rfl, hready⟩

/-- Witness for C5: starting a freshly created container succeeds with the
stated effects; the INVALID_OPERATION characterization holds for a
missing tag. -/
theorem startContainer_characterization_witness :
    startContainer (runOps initState [Op.create { tag := "w5" }])
      { tag := "w5", command := { cmd := "/bin/echo", arguments := ["hi"] } } =
      ({ runOps initState [Op.create { tag := "w5" }] with
          assistentManagers := (aupdate
            (runOps initState [Op.create { tag := "w5" }]).assistentManagers "w5"
            { tag := "w5", command := { cmd := "/bin/echo", arguments := ["hi"] } }),
          runnable := (runOps initState [Op.create { tag := "w5" }]).runnable ++ ["w5"] },
       .ok ()) ∧
    ((∃ r, (startContainer initState
        { tag := "w5", command := { cmd := "/bin/echo", arguments := ["hi"] } }).2 =
        .error (.invalidOperation r)) ↔
      (alookup initState.containerInfos "w5" = none ∨
        ∃ i, alookup initState.containerInfos "w5" = some i ∧
          i.state ≠ ContainerState.READY)) :=
  ⟨(startContainer_characterization (runOps initState [Op.create { tag := "w5" }])
      { tag := "w5", command := { cmd := "/bin/echo", arguments := ["hi"] } }).1
      { tag := "w5", state := ContainerState.READY, exitInfo := none }
      (by decide) (by decide) (by decide),
    (startContainer_characterization initState
      { tag := "w5", command := { cmd := "/bin/echo", arguments := ["hi"] } }).2.2⟩

/-- C7 counterexample: `c7` is a known tag (READY), yet its DEAD report
returns neither STOP nor OKAY — `runningContainers.remove` raises
`KeyError`, refuting "for every known tag, after applying the transition
it returns STOP ... and OKAY otherwise". -/
theorem known_tag_report_raises_instead_of_directive :
    alookup (runOps initState [Op.create { tag := "c7" }]).containerInfos "c7" =
      some { tag := "c7", state := ContainerState.READY, exitInfo := none } ∧
    (reportContainerStatus (runOps initState [Op.create { tag := "c7" }])
      { tag := "c7", state := ContainerState.DEAD }).2 =
      .error (.keyError "c7") := by
  constructor
  · decide
  · decide

/-- C7 (amended): `reportContainerStatus` returns ABORT iff the tag is
unknown, and then mutates nothing; whenever a call on a known tag returns
a directive at all (a DEAD report for a tag outside the RunningSet and a
RUNNING-promotion report with no AssistentManagerInfo instead raise
KeyError), the directive is STOP iff the post-call state is STOPPING, and
never ABORT. -/
theorem reportContainerStatus_directives (s : ManagerState)
    (request : ReportContainerStatusRequest) :
    ((reportContainerStatus s request).2 = .ok ManagerResponse.ABORT ↔
      alookup s.containerInfos request.tag = none) ∧
    (alookup s.containerInfos request.tag = none →
      reportContainerStatus s request = (s, .ok ManagerResponse.ABORT)) ∧
    (∀ s2 d, reportContainerStatus s request = (s2, .ok d) →
      alookup s.containerInfos request.tag ≠ none →
      (d ≠ ManagerResponse.ABORT ∧
        (d = ManagerResponse.STOP ↔
          ∃ i, alookup s2.containerInfos request.tag = some i ∧
            i.state = ContainerState.STOPPING))) := by
  have hne_abort : ∀ st, directiveFor st ≠ ManagerResponse.ABORT := by
    intro st
    cases st <;> simp [directiveFor]
  have hstop_iff : ∀ st, directiveFor st = ManagerResponse.STOP ↔ st = ContainerState.STOPPING := by
    intro st
    cases st <;> simp [directiveFor]
  have hlk : ∀ (l : List (String × ContainerInfo)) (tg : String) (i0 : ContainerInfo),
      alookup l tg = some i0 →
      ((∃ i, alookup l tg = some i ∧ i.state = ContainerState.STOPPING) ↔
        i0.state = ContainerState.STOPPING) := by
    intro l tg i0 h0
    constructor
    · rintro ⟨i, hi, hsti⟩
      rw [h0] at hi
      obtain rfl : _ = i := Option.some.inj hi
      exact hsti
    · intro hst
      exact ⟨i0, h0, hst⟩
  match hl : alookup s.containerInfos request.tag with
  | none =>
    refine ⟨iff_of_true ?_ rfl, fun _ => ?_, fun s2 d heq hne => absurd rfl hne⟩
    · unfold reportContainerStatus
      rw [hl]
    · unfold reportContainerStatus
      rw [hl]
  | some info =>
    have hmain : ∀ s2 d, reportContainerStatus s request = (s2, .ok d) →
        d ≠ ManagerResponse.ABORT ∧
          (d = ManagerResponse.STOP ↔
            ∃ i, alookup s2.containerInfos request.tag = some i ∧
              i.state = ContainerState.STOPPING) := by
      intro s2 d heq
      unfold reportContainerStatus at heq
      rw [hl] at heq
      dsimp only at heq
      by_cases hrun : request.state = ContainerState.RUNNING ∧ info.state = ContainerState.READY
      · rw [if_pos hrun] at heq
        match ham : alookup s.assistentManagers request.tag with
        | none =>
          rw [ham] at heq
          dsimp only at heq
          rw [Prod.mk.injEq] at heq
          exact Except.noConfusion heq.2
        | some am =>
          rw [ham] at heq
          dsimp only at heq
          rw [Prod.mk.injEq] at heq
          obtain ⟨hs2, hd⟩ := heq
          obtain rfl : _ = d := Except.ok.inj hd
          subst hs2
          refine ⟨hne_abort _, ?_⟩
          rw [hstop_iff]
          rw [hlk _ _ _ (alookup_aupdate_self s.containerInfos request.tag
            { info with state := ContainerState.RUNNING })]
      · by_cases hdead : request.state = ContainerState.DEAD
        · rw [if_neg hrun, if_pos hdead] at heq
          by_cases hmem : request.tag ∈ s.runningContainers
          · rw [if_pos hmem] at heq
            rw [Prod.mk.injEq] at heq
            obtain ⟨hs2, hd⟩ := heq
            obtain rfl : _ = d := Except.ok.inj hd
            subst hs2
            refine ⟨hne_abort _, ?_⟩
            rw [hstop_iff]
            rw [hlk _ _ _ (alookup_aupdate_self s.containerInfos request.tag
              { info with state := ContainerState.DEAD, exitInfo := request.exitInfo })]
          · rw [if_neg hmem] at heq
            rw [Prod.mk.injEq] at heq
            exact Except.noConfusion heq.2
        · rw [if_neg hrun, if_neg hdead] at heq
          rw [Prod.mk.injEq] at heq
          obtain ⟨hs2, hd⟩ := heq
          obtain rfl : _ = d := Except.ok.inj hd
          subst hs2
          refine ⟨hne_abort _, ?_⟩
          rw [hstop_iff]
          rw [hlk _ _ _ hl]
    refine ⟨?_, fun h => absurd h (by simp), fun s2 d heq _ => hmain s2 d heq⟩
    apply iff_of_false
    · intro h2
      have heq : reportContainerStatus s request =
          ((reportContainerStatus s request).1, Except.ok ManagerResponse.ABORT) := by
        rw [← h2]
      exact absurd rfl (hmain _ _ heq).1
    · simp

/-- Witness for C7: the unknown-tag clause applied to a fresh handler, and
the directive clause applied to a READY-state report (a no-transition
input) which returns OKAY. -/
theorem reportContainerStatus_directives_witness :
    reportContainerStatus initState { tag := "ghost", state := ContainerState.RUNNING } =
      (initState, .ok ManagerResponse.ABORT) ∧
    (ManagerResponse.OKAY ≠ ManagerResponse.ABORT ∧
      (ManagerResponse.OKAY = ManagerResponse.STOP ↔
        ∃ i, alookup (runOps initState [Op.create { tag := "w7" }]).containerInfos "w7" =
            some i ∧ i.state = ContainerState.STOPPING)) :=
  ⟨(reportContainerStatus_directives initState
      { tag := "ghost", state := ContainerState.RUNNING }).2.1 (by decide),
    (reportContainerStatus_directives (runOps initState [Op.create { tag := "w7" }])
      { tag := "w7", state := ContainerState.READY }).2.2
      (runOps initState [Op.create { tag := "w7" }]) ManagerResponse.OKAY
      (by decide) (by decide)⟩

theorem errOf_eq_some {α : Type} (x : Except PyError α) (e : PyError) :
    errOf x = some e ↔ x = .error e := by
  cases x <;> simp [errOf]

theorem createContainer_error_state (s : ManagerState) (request : CreateContainerRequest)
    (e : PyError) (h : (createContainer s request).2 = .error e) :
    (createContainer s request).1 = s := by
  unfold createContainer at h ⊢
  by_cases hdup : (alookup s.containerInfos request.tag).isSome
  · rw [if_pos hdup]
  · rw [if_neg hdup] at h
    simp at h

theorem startContainer_error_state (s : ManagerState) (request : StartContainerRequest)
    (e : PyError) (h : (startContainer s request).2 = .error e) :
    (startContainer s request).1 = s := by
  unfold startContainer at h ⊢
  cases hl : alookup s.containerInfos request.tag with
  | none => rfl
  | some info =>
    dsimp only
    rw [hl] at h
    dsimp only at h
    by_cases hst : info.state ≠ ContainerState.READY
    · rw [if_pos hst]
    · rw [if_neg hst] at h ⊢
      by_cases ham : (alookup s.assistentManagers request.tag).isSome = true
      · rw [if_pos ham]
      · rw [if_neg ham] at h
        simp at h

theorem stopContainer_error_state (s : ManagerState) (request : StopContainerRequest)
    (e : PyError) (h : (stopContainer s request).2 = .error e) :
    (stopContainer s request).1 = s := by
  unfold stopContainer at h ⊢
  cases hl : alookup s.containerInfos request.tag with
  | none => rfl
  | some info =>
    dsimp only
    rw [hl] at h
    dsimp only at h
    by_cases hst : info.state = ContainerState.STOPPING ∨ info.state = ContainerState.RUNNING
    · rw [if_pos hst] at h
      simp at h
    · rw [if_neg hst]

theorem deleteContainer_error_state (s : ManagerState) (request : DeleteContainerRequest)
    (e : PyError) (h : (deleteContainer s request).2 = .error e) :
    (deleteContainer s request).1 = s := by
  unfold deleteContainer at h ⊢
  cases hl : alookup s.containerInfos request.tag with
  | none => rfl
  | some info =>
    dsimp only
    rw [hl] at h
    dsimp only at h
    by_cases hact : info.state = ContainerState.RUNNING ∨ info.state = ContainerState.STOPPING
    · rw [if_pos hact]
    · rw [if_neg hact] at h
      simp at h

theorem reportContainerStatus_never_invalidOperation (s : ManagerState)
    (request : ReportContainerStatusRequest) (r : String) :
    (reportContainerStatus s request).2 ≠ .error (.invalidOperation r) := by
  intro h
  unfold reportContainerStatus at h
  match hl : alookup s.containerInfos request.tag with
  | none =>
    rw [hl] at h
    simp at h
  | some info =>
    rw [hl] at h
    dsimp only at h
    by_cases hrun : request.state = ContainerState.RUNNING ∧ info.state = ContainerState.READY
    · rw [if_pos hrun] at h
      match ham : alookup s.assistentManagers request.tag with
      | none =>
        rw [ham] at h
        simp at h
      | some am =>
        rw [ham] at h
        simp at h
    · by_cases hdead : request.state = ContainerState.DEAD
      · rw [if_neg hrun, if_pos hdead] at h
        by_cases hmem : request.tag ∈ s.runningContainers
        · rw [if_pos hmem] at h
          simp at h
        · rw [if_neg hmem] at h
          simp at h
      · rw [if_neg hrun, if_neg hdead] at h
        simp at h

/-- C3 counterexample: `reportContainerStatus(state=DEAD)` on the known
READY tag `p` raises (a `KeyError`, not the typed error) *and* leaves the
state mutated — the container was moved to DEAD with exitInfo stored
before the raise, so the Manager partially applied a transition. -/
theorem partial_transition_on_dead_report :
    (reportContainerStatus (runOps initState [Op.create { tag := "p" }])
      { tag := "p", state := ContainerState.DEAD,
        exitInfo := some { code := ExitCode.EXIT, status := 3 } }).2 =
      .error (.keyError "p") ∧
    (reportContainerStatus (runOps initState [Op.create { tag := "p" }])
      { tag := "p", state := ContainerState.DEAD,
        exitInfo := some { code := ExitCode.EXIT, status := 3 } }).1 ≠
      runOps initState [Op.create { tag := "p" }] := by
  constructor
  · decide
  · decide

/-- C3 (amended): every request that raises the typed INVALID_OPERATION
leaves all four Manager tables exactly as they were (validation precedes
every mutation, and `reportContainerStatus` never raises it) — but the
Manager does *not* guarantee all-or-nothing transitions in general: a
DEAD report for a known tag outside the RunningSet mutates state and
exitInfo and then raises `KeyError`. -/
theorem invalid_operation_mutates_nothing (s : ManagerState) (op : Op)
    (h : ∃ r, (applyOp s op).2 = some (PyError.invalidOperation r)) :
    (applyOp s op).1 = s := by
  obtain ⟨r, hr⟩ := h
  match op with
  | .create request =>
    dsimp only [applyOp] at hr
    rw [errOf_eq_some] at hr
    exact createContainer_error_state s request _ hr
  | .start request =>
    dsimp only [applyOp] at hr
    rw [errOf_eq_some] at hr
    exact startContainer_error_state s request _ hr
  | .stop request =>
    dsimp only [applyOp] at hr
    rw [errOf_eq_some] at hr
    exact stopContainer_error_state s request _ hr
  | .delete request =>
    dsimp only [applyOp] at hr
    rw [errOf_eq_some] at hr
    exact deleteContainer_error_state s request _ hr
  | .list request => exact listContainers_state s request
  | .dequeue =>
    dsimp only [applyOp] at hr
    simp at hr
  | .getRunning =>
    dsimp only [applyOp] at hr
    simp at hr
  | .getAMStatus request =>
    dsimp only [applyOp] at hr
    simp at hr
  | .report request =>
    dsimp only [applyOp] at hr
    rw [errOf_eq_some] at hr
    exact absurd hr (reportContainerStatus_never_invalidOperation s request r)

/-- Witness for C3: deleting an absent tag raises INVALID_OPERATION and
the state is exactly the initial one afterwards. -/
theorem invalid_operation_mutates_nothing_witness :
    (applyOp initState (Op.delete { tag := "x" })).2 =
      some (PyError.invalidOperation ("container: " ++ "x" ++ " does not exist")) ∧
    (applyOp initState (Op.delete { tag := "x" })).1 = initState :=
  ⟨by decide,
    invalid_operation_mutates_nothing initState (Op.delete { tag := "x" })
      ⟨"container: " ++ "x" ++ " does not exist", by decide⟩⟩

end ContainerManagerToy
